import Mathlib

/-!
A verification development for the ChronoLens repository.

The definitions below are a shallow embedding of:
* the session state machine of `src/App.tsx` (phases, captured image,
  accumulated generation results, error handling),
* the sequential batch time-travel loop of `handleStartJourney` and the
  single-item runs `handleCustomEdit`, `handleRestore`,
  `handleMagicEditProcess`,
* the prompt builders `getStylePrompt` and `getResolutionPrompt` of the
  Gemini service module,
* the submission gating and pixel binarization loop of
  `src/components/MaskEditor.tsx`.

Remote calls (the Gemini service) are modelled by explicit outcome values
of type `Except String String`: `Except.ok url` stands for a resolved
image data URL, `Except.error msg` for a rejected call whose `message`
field is `msg` (an empty `msg` models a thrown value without a message,
which the handlers replace by their fixed fallback text, as the source
does with `e.message || "..."`).
-/

/-- The `AppState` enum of `src/types.ts`. -/
inductive AppState where
  | HOME
  | CAPTURE
  | PREVIEW
  | PROCESSING
  | RESTORE
  | MASKING
  | RESULT
deriving DecidableEq, Repr

/-- The `Era` enum of `src/types.ts`. -/
inductive Era where
  | VICTORIAN
  | ANCIENT_EGYPT
  | ROARING_20S
  | VIKING
  | CYBERPUNK
  | MEDIEVAL
  | WESTERN
  | RENAISSANCE
deriving DecidableEq, Repr

/-- The string value carried by each `Era` enum member in `src/types.ts`. -/
def eraLabel : Era → String
  | .VICTORIAN => "Victorian Era"
  | .ANCIENT_EGYPT => "Ancient Egypt"
  | .ROARING_20S => "Roaring 1920s"
  | .VIKING => "Viking Age"
  | .CYBERPUNK => "Cyberpunk Future"
  | .MEDIEVAL => "Medieval Knight"
  | .WESTERN => "Wild West"
  | .RENAISSANCE => "Renaissance Painting"

/-- The `ImageStyle` enum of `src/types.ts`. -/
inductive ImageStyle where
  | REALISTIC
  | CINEMATIC
  | VINTAGE
  | PAINTING
  | CYBER
  | SKETCH
  | STUDIO_LIGHTING
  | STEAMPUNK
  | ART_DECO
  | RETRO_FUTURISM
deriving DecidableEq, Repr

/-- The string value carried by each `ImageStyle` enum member in `src/types.ts`.
TypeScript string enums are strings at runtime (the app even casts raw
`localStorage` strings to `ImageStyle`), so the style-to-clause switch below
is embedded over `String`. -/
def styleValue : ImageStyle → String
  | .REALISTIC => "Photorealistic"
  | .CINEMATIC => "Cinematic"
  | .VINTAGE => "Vintage Film"
  | .PAINTING => "Oil Painting"
  | .CYBER => "Cyberpunk/Neon"
  | .SKETCH => "Pencil Sketch"
  | .STUDIO_LIGHTING => "Studio Lighting"
  | .STEAMPUNK => "Steampunk"
  | .ART_DECO => "Art Deco"
  | .RETRO_FUTURISM => "Retro Futurism"

/-- The `Resolution` enum of `src/types.ts`. -/
inductive Resolution where
  | STANDARD
  | HIGH
  | ULTRA_4K
deriving DecidableEq, Repr

/-- The realistic/neutral clause, returned by the combined
`case ImageStyle.REALISTIC: default:` branch of `getStylePrompt`. -/
def realisticClause : String :=
  "Photorealistic, natural lighting, sharp focus, true to life colors."

/-- `getStylePrompt` of the Gemini service module: a switch over the
`ImageStyle` string values with the realistic clause as the shared
`REALISTIC`/`default` branch. -/
def getStylePrompt (style : String) : String :=
  if style = "Cinematic" then
    "Cinematic lighting, dramatic atmosphere, movie still quality, color graded, widescreen aspect ratio."
  else if style = "Vintage Film" then
    "Vintage film grain, sepia tones, slightly faded, daguerreotype style, authentic period look."
  else if style = "Oil Painting" then
    "Oil painting style, visible brushstrokes, classical art composition, textured canvas look."
  else if style = "Cyberpunk/Neon" then
    "Neon lighting, high contrast, glowing accents, futuristic aesthetic, cybernetic details."
  else if style = "Pencil Sketch" then
    "Charcoal sketch, pencil lines, artistic shading, monochrome, hand-drawn style."
  else if style = "Studio Lighting" then
    "Professional studio lighting, softbox, neutral background, high key, perfect portrait."
  else if style = "Steampunk" then
    "Steampunk aesthetic, brass gears, copper accents, steam-powered machinery background, victorian industrial style."
  else if style = "Art Deco" then
    "Art Deco style, geometric patterns, gold and black color palette, lavish 1920s luxury, symmetrical composition."
  else if style = "Retro Futurism" then
    "Retro-futurism, 1950s atomic age sci-fi, chrome surfaces, flying cars, vibrant colors, space age optimism."
  else realisticClause

/-- The closed set of clauses `getStylePrompt` can return. -/
def styleClauses : List String :=
  [ "Cinematic lighting, dramatic atmosphere, movie still quality, color graded, widescreen aspect ratio.",
    "Vintage film grain, sepia tones, slightly faded, daguerreotype style, authentic period look.",
    "Oil painting style, visible brushstrokes, classical art composition, textured canvas look.",
    "Neon lighting, high contrast, glowing accents, futuristic aesthetic, cybernetic details.",
    "Charcoal sketch, pencil lines, artistic shading, monochrome, hand-drawn style.",
    "Professional studio lighting, softbox, neutral background, high key, perfect portrait.",
    "Steampunk aesthetic, brass gears, copper accents, steam-powered machinery background, victorian industrial style.",
    "Art Deco style, geometric patterns, gold and black color palette, lavish 1920s luxury, symmetrical composition.",
    "Retro-futurism, 1950s atomic age sci-fi, chrome surfaces, flying cars, vibrant colors, space age optimism.",
    "Photorealistic, natural lighting, sharp focus, true to life colors." ]

/-- `getResolutionPrompt` of the Gemini service module. The source first
picks `base` from the resolution tier (default `"Standard resolution."`,
overwritten for `HIGH` and `ULTRA_4K`), then picks `detailDesc` from the
detail level (default `"balanced details"`, overwritten below 30 and above
70), and returns the template combining both. -/
def getResolutionPrompt (resolution : Resolution) (detailLevel : Nat) : String :=
  (if resolution = Resolution.HIGH then
      "High quality, detailed, sharp focus."
    else if resolution = Resolution.ULTRA_4K then
      "4K resolution, ultra sharp, highly detailed, masterful quality."
    else "Standard resolution.")
  ++ " Ensure the image has "
  ++ (if detailLevel < 30 then
        "soft edges, smooth textures, dreamy quality"
      else if 70 < detailLevel then
        "intricate micro-details, hyper-realistic textures, extremely sharp edges, high fidelity"
      else "balanced details")
  ++ "."

/-- The base-quality clause of `getResolutionPrompt` as a function of the
resolution tier alone (it does not depend on the detail level). -/
def resolutionBase : Resolution → String
  | .HIGH => "High quality, detailed, sharp focus."
  | .ULTRA_4K => "4K resolution, ultra sharp, highly detailed, masterful quality."
  | .STANDARD => "Standard resolution."

/-- One entry of the `generatedResults` array of `src/App.tsx`
(interface `GenerationResult` of `src/types.ts`). -/
structure GenerationResult where
  era : String
  imageUrl : String
deriving DecidableEq, Repr

/-- The React state of the `App` component of `src/App.tsx` that the
session state machine reads and writes. UI-only state (slider position,
info modal, audio) is out of scope. -/
structure Session where
  state : AppState
  capturedImage : Option String
  generatedResults : List GenerationResult
  activeIndex : Nat
  analysisText : Option String
  error : Option String
  selectedStyle : ImageStyle
  selectedResolution : Resolution
  detailLevel : Nat
  customPrompt : String
  activeFilter : String

/-- The initial `useState` values of `src/App.tsx` (with the
`localStorage` fallbacks `REALISTIC`, `STANDARD`, `50`). -/
def initialSession : Session :=
  { state := AppState.HOME
    capturedImage := none
    generatedResults := []
    activeIndex := 0
    analysisText := none
    error := none
    selectedStyle := ImageStyle.REALISTIC
    selectedResolution := Resolution.STANDARD
    detailLevel := 50
    customPrompt := ""
    activeFilter := "none" }

/-- JavaScript `msg || fallback`: the fallback replaces an empty (falsy)
message, as in `e.message || "Analysis failed"`. -/
def messageOr (msg fallback : String) : String :=
  if msg = "" then fallback else msg

/-- `startApp` of `src/App.tsx`. -/
def startApp (s : Session) : Session :=
  { s with state := AppState.CAPTURE }

/-- `handleCapture` of `src/App.tsx`. It clears error, analysis, results,
filter and prompt, but does not touch `activeIndex`. -/
def handleCapture (s : Session) (imageSrc : String) : Session :=
  { s with capturedImage := some imageSrc
           state := AppState.PREVIEW
           error := none
           analysisText := none
           generatedResults := []
           activeFilter := "none"
           customPrompt := "" }

/-- `reset` of `src/App.tsx`. It clears the captured image, results,
analysis, filter and prompt and returns to HOME; it does not touch
`error` or `activeIndex`. -/
def reset (s : Session) : Session :=
  { s with capturedImage := none
           generatedResults := []
           analysisText := none
           state := AppState.HOME
           activeFilter := "none"
           customPrompt := "" }

/-- The `Adjust Settings` button of the RESULT screen of `src/App.tsx`
(`setState(AppState.PREVIEW)`); it is only rendered in RESULT. -/
def backToPreview (s : Session) : Session :=
  if s.state = AppState.RESULT then { s with state := AppState.PREVIEW } else s

/-- A gallery-strip thumbnail click of the RESULT screen of
`src/App.tsx` (`setActiveIndex(idx)`); the strip is only rendered in
RESULT when more than one result exists, with one button per index. -/
def selectResult (s : Session) (i : Nat) : Session :=
  if s.state = AppState.RESULT ∧ 1 < s.generatedResults.length
      ∧ i < s.generatedResults.length then
    { s with activeIndex := i }
  else s

/-- The opening statements of `handleAnalyze` of `src/App.tsx`:
`setState(PROCESSING); setError(null);` — results are not cleared. -/
def analyzeEntry (s : Session) : Session :=
  { s with state := AppState.PROCESSING, error := none }

/-- `handleAnalyze` of `src/App.tsx`, with the outcome of the remote
`analyzeImage` call made explicit. Both success and failure return to
PREVIEW; failure stores the error message. -/
def handleAnalyze (s : Session) (outcome : Except String String) : Session :=
  match s.capturedImage with
  | none => s
  | some _ =>
    let s1 := analyzeEntry s
    match outcome with
    | Except.ok text => { s1 with analysisText := some text, state := AppState.PREVIEW }
    | Except.error msg =>
      { s1 with error := some (messageOr msg "Analysis failed"), state := AppState.PREVIEW }

/-- The opening statements of `handleStartJourney` of `src/App.tsx`:
`setState(PROCESSING); setError(null); setGeneratedResults([]);
setActiveIndex(0); setActiveFilter('none');`. -/
def startJourneyEntry (s : Session) : Session :=
  { s with state := AppState.PROCESSING
           error := none
           generatedResults := []
           activeIndex := 0
           activeFilter := "none" }

/-- A successful prefix item of a batch run: the era together with the
data URL its `timeTravel` call resolved to. -/
def okItem (g : Era × String) : Era × Except String String :=
  (g.1, Except.ok g.2)

/-- The outcome of the sequential `for (const era of eras)` loop of
`handleStartJourney`: the results appended so far, the eras actually
requested (in order), and the error that aborted the loop, if any. -/
structure BatchOutcome where
  results : List GenerationResult
  requested : List Era
  err : Option String
deriving Repr

/-- The sequential loop of `handleStartJourney` of `src/App.tsx`. Each
item is a pair of the era and the outcome of its `timeTravel` call; the
loop requests the items strictly in order, appends one result per
success, and aborts at the first failure without requesting the
remaining items. -/
def runEras : List (Era × Except String String) → BatchOutcome
  | [] => ⟨[], [], none⟩
  | (e, Except.error msg) :: _ => ⟨[], [e], some msg⟩
  | (e, Except.ok url) :: rest =>
    let o := runEras rest
    ⟨⟨eraLabel e, url⟩ :: o.results, e :: o.requested, o.err⟩

/-- The resolution of `handleStartJourney` after its loop: all items
succeeded lands on RESULT; a failure stores the error (with the
`"Failed during time travel."` fallback) and lands on RESULT exactly
when at least one result had already been collected, else PREVIEW. -/
def startJourneyFinish (s1 : Session) (o : BatchOutcome) : Session :=
  match o.err with
  | none => { s1 with generatedResults := o.results, state := AppState.RESULT }
  | some msg =>
    { s1 with generatedResults := o.results
              error := some (messageOr msg "Failed during time travel.")
              state := if 0 < o.results.length then AppState.RESULT else AppState.PREVIEW }

/-- `handleStartJourney` of `src/App.tsx`: a no-op without a captured
image or with an empty era list, otherwise the entry statements, the
sequential loop and the resolution. -/
def handleStartJourney (s : Session) (items : List (Era × Except String String)) : Session :=
  match s.capturedImage, items with
  | none, _ => s
  | some _, [] => s
  | some _, hd :: tl => startJourneyFinish (startJourneyEntry s) (runEras (hd :: tl))

/-- The opening statements of `handleCustomEdit` of `src/App.tsx`. -/
def customEditEntry (s : Session) : Session :=
  { s with state := AppState.PROCESSING
           error := none
           generatedResults := []
           activeIndex := 0
           activeFilter := "none" }

/-- `handleCustomEdit` of `src/App.tsx`, with the outcome of the remote
`customEdit` call made explicit. -/
def handleCustomEdit (s : Session) (_prompt : String) (outcome : Except String String) :
    Session :=
  match s.capturedImage with
  | none => s
  | some _ =>
    let s1 := customEditEntry s
    match outcome with
    | Except.ok url =>
      { s1 with generatedResults := [⟨"Custom Reality", url⟩], state := AppState.RESULT }
    | Except.error msg =>
      { s1 with error := some (messageOr msg "Custom edit failed"), state := AppState.PREVIEW }

/-- The opening statements of `handleMagicEditProcess` of `src/App.tsx`. -/
def magicEditEntry (s : Session) : Session :=
  { s with state := AppState.PROCESSING
           error := none
           generatedResults := []
           activeIndex := 0
           activeFilter := "none" }

/-- `handleMagicEditProcess` of `src/App.tsx`, with the outcome of the
remote `magicEdit` call made explicit. -/
def handleMagicEditProcess (s : Session) (_maskImage _prompt : String)
    (outcome : Except String String) : Session :=
  match s.capturedImage with
  | none => s
  | some _ =>
    let s1 := magicEditEntry s
    match outcome with
    | Except.ok url =>
      { s1 with generatedResults := [⟨"Magic Edit", url⟩], state := AppState.RESULT }
    | Except.error msg =>
      { s1 with error := some (messageOr msg "Magic edit failed"), state := AppState.PREVIEW }

/-- The opening statements of `handleRestore` of `src/App.tsx`
(`setState(RESTORE)` instead of PROCESSING). -/
def restoreEntry (s : Session) : Session :=
  { s with state := AppState.RESTORE
           error := none
           generatedResults := []
           activeIndex := 0
           activeFilter := "none" }

/-- The restoration prompt template of `handleRestore` of `src/App.tsx`. -/
def restorationPrompt (damageReport : String) : String :=
  "Restore this photograph to perfection. Fix the following issues: " ++ damageReport
    ++ ". Remove all scratches, tears, noise, and blur. Enhance clarity and sharpness. Ensure colors are natural and vibrant."

/-- One request to the `customEdit` service function, with the
configuration arguments `handleRestore` passes. -/
structure EditRequest where
  image : String
  prompt : String
  style : ImageStyle
  resolution : Resolution
  detailLevel : Nat

/-- The `customEdit` request issued by `handleRestore` of `src/App.tsx`:
`customEdit(capturedImage, restorationPrompt, ImageStyle.REALISTIC,
Resolution.HIGH, 80)` — the session's configured style, resolution and
detail level are not consulted. -/
def restoreRequest (img damageReport : String) : EditRequest :=
  ⟨img, restorationPrompt damageReport, ImageStyle.REALISTIC, Resolution.HIGH, 80⟩

/-- `handleRestore` of `src/App.tsx`, with the outcomes of the two remote
calls (`analyzeImage` for the damage report, then `customEdit`) made
explicit. Returns the final session together with the `customEdit`
request it issued, if it reached that call. -/
def handleRestore (s : Session) (analysisOutcome editOutcome : Except String String) :
    Session × Option EditRequest :=
  match s.capturedImage with
  | none => (s, none)
  | some img =>
    let s1 := restoreEntry s
    match analysisOutcome with
    | Except.error msg =>
      ({ s1 with error := some (messageOr msg "Restoration failed."),
                 state := AppState.PREVIEW }, none)
    | Except.ok damageReport =>
      match editOutcome with
      | Except.ok url =>
        ({ s1 with generatedResults := [⟨"Restored Photo", url⟩],
                   state := AppState.RESULT }, some (restoreRequest img damageReport))
      | Except.error msg =>
        ({ s1 with error := some (messageOr msg "Restoration failed."),
                   state := AppState.PREVIEW }, some (restoreRequest img damageReport))

/-- Session states reachable by the user actions of `src/App.tsx` from
the initial state. Each constructor is one action dispatched by the UI. -/
inductive Reachable : Session → Prop where
  | init : Reachable initialSession
  | app_start {s} : Reachable s → Reachable (startApp s)
  | capture {s img} : Reachable s → Reachable (handleCapture s img)
  | analyze {s out} : Reachable s → Reachable (handleAnalyze s out)
  | journey {s items} : Reachable s → Reachable (handleStartJourney s items)
  | custom {s p out} : Reachable s → Reachable (handleCustomEdit s p out)
  | magic {s mask p out} : Reachable s → Reachable (handleMagicEditProcess s mask p out)
  | restoreStep {s ao eo} : Reachable s → Reachable (handleRestore s ao eo).1
  | toPreview {s} : Reachable s → Reachable (backToPreview s)
  | select {s i} : Reachable s → Reachable (selectResult s i)
  | sessionReset {s} : Reachable s → Reachable (reset s)

/-- The per-pixel effect of the drawing surface underneath the
binarization loop of `MaskEditor.handleSubmit`: the mask canvas is filled
opaque black, then the stroke layer (ink color `rgba(255, 0, 100, 0.5)`,
stored with 8-bit premultiplied channels) is composited source-over. A
pixel whose accumulated stroke coverage is `a / 255` therefore reads back
as `(round(255 * a / 255), 0, round(100 * a / 255), 255)`, here with
round-to-nearest integer rounding. Coverage `0` (no ink) gives the black
fill `(0, 0, 0, 255)`. -/
def compositedStrokePixel (a : Nat) : List Nat :=
  [(255 * a + 127) / 255, 0, (100 * a + 127) / 255, 255]

/-- The binarization loop of `MaskEditor.handleSubmit` over the flat RGBA
data array: for each pixel (stride 4), if the red channel is non-zero the
four channels are set to 255, otherwise the pixel is left unchanged. -/
def binarizeData : List Nat → List Nat
  | r :: g :: b :: alpha :: rest =>
    if 0 < r then 255 :: 255 :: 255 :: 255 :: binarizeData rest
    else r :: g :: b :: alpha :: binarizeData rest
  | l => l

/-- The state of the `MaskEditor` component of
`src/components/MaskEditor.tsx` that submission depends on: `hasDrawn`
(set by any draw stroke, cleared by Clear), the instruction string, and
the per-pixel stroke coverage of the visual canvas. -/
structure MaskEditorModel where
  hasDrawn : Bool
  prompt : String
  canvasAlphas : List Nat

/-- JavaScript `String.prototype.trim`: strips leading and trailing
whitespace. (An executable embedding over the character list; a trimmed
string is empty exactly when the original was whitespace-only.) -/
def jsTrim (s : String) : String :=
  ⟨((s.data.dropWhile Char.isWhitespace).reverse.dropWhile Char.isWhitespace).reverse⟩

/-- `handleSubmit` of `src/components/MaskEditor.tsx`: guarded by
`if (!prompt.trim()) return;`, then binarizes the composited canvas once
and hands the mask and the instruction to `onConfirm`. The first
component counts the binarization passes performed. -/
def handleSubmit (m : MaskEditorModel) : Nat × Option (List Nat × String) :=
  if jsTrim m.prompt = "" then (0, none)
  else (1, some (binarizeData ((m.canvasAlphas.map compositedStrokePixel).flatten), m.prompt))

/-- The confirm button of `MaskEditor`: it is disabled (inert) unless
`hasDrawn` and the trimmed instruction is non-empty
(`disabled=(not hasDrawn) or (not prompt.trim())`); when enabled, a click
runs `handleSubmit`. -/
def confirmAction (m : MaskEditorModel) : Nat × Option (List Nat × String) :=
  if m.hasDrawn = true ∧ ¬ jsTrim m.prompt = "" then handleSubmit m else (0, none)

/-- A session right after entering the photo booth and capturing an
image, used as a concrete starting point. -/
def capturedSession : Session :=
  handleCapture (startApp initialSession) "img"

/-! ### Helper lemmas -/

/-- Unfolding `runEras` on a successful head item. -/
lemma runEras_ok_cons (e : Era) (u : String) (rest : List (Era × Except String String)) :
    runEras ((e, Except.ok u) :: rest) =
      ⟨⟨eraLabel e, u⟩ :: (runEras rest).results,
       e :: (runEras rest).requested, (runEras rest).err⟩ := rfl

/-- Unfolding `runEras` on a failing head item: the loop aborts, no
result is appended, only the failing era was requested. -/
lemma runEras_error_cons (e : Era) (m : String) (rest : List (Era × Except String String)) :
    runEras ((e, Except.error m) :: rest) = ⟨[], [e], some m⟩ := rfl

/-- `runEras` over a successful prefix: every prefix item yields its
result in order, is recorded as requested, and the error is whatever the
remaining items produce. -/
lemma runEras_append_ok (good : List (Era × String)) (rest : List (Era × Except String String)) :
    runEras (good.map okItem ++ rest) =
      ⟨good.map (fun g => ⟨eraLabel g.1, g.2⟩) ++ (runEras rest).results,
       good.map Prod.fst ++ (runEras rest).requested,
       (runEras rest).err⟩ := by
  induction good with
  | nil => rfl
  | cons g gs ih =>
    cases g with
    | mk e u =>
      simp only [List.map_cons, List.cons_append, okItem, runEras_ok_cons, ih]

/-- With a captured image and a non-empty item list, `handleStartJourney`
is the entry statements followed by the loop and its resolution. -/
lemma handleStartJourney_eq (s : Session) (img : String) (himg : s.capturedImage = some img)
    (items : List (Era × Except String String)) (hne : items ≠ []) :
    handleStartJourney s items =
      startJourneyFinish (startJourneyEntry s) (runEras items) := by
  cases items with
  | nil => exact absurd rfl hne
  | cons hd tl => unfold handleStartJourney; rw [himg]

/-- Taking the length of the left list plus `n` from an append. -/
lemma take_append_add {α : Type} (l1 l2 : List α) (n : Nat) :
    (l1 ++ l2).take (l1.length + n) = l1 ++ l2.take n := by
  induction l1 with
  | nil => simp
  | cons a l ih => simp [List.length_cons, Nat.succ_add, ih]

/-- The red channel read back for stroke coverage `a` is `a` itself. -/
lemma compositedRed (a : Nat) : (255 * a + 127) / 255 = a := by omega

/-- Unfolding `binarizeData` on one pixel. -/
lemma binarizeData_cons4 (r g b alpha : Nat) (rest : List Nat) :
    binarizeData (r :: g :: b :: alpha :: rest) =
      if 0 < r then 255 :: 255 :: 255 :: 255 :: binarizeData rest
      else r :: g :: b :: alpha :: binarizeData rest := rfl

/-! ### Claim C3 -/

/-- A reachable session carrying an error: a capture followed by a failed
custom edit. -/
def errSession : Session := handleCustomEdit capturedSession "p" (Except.error "boom")

/-- Claim C3 counterexample: invoking `reset` from a reachable session
whose `lastError` is set does clear the source image and the results and
lands on HOME, but the error survives (`reset` never calls
`setError(null)`), so the claim that reset leaves `lastError` cleared is
false at this input. -/
theorem claim3_counterexample :
    Reachable errSession
    ∧ errSession.error = some "boom"
    ∧ (reset errSession).capturedImage = none
    ∧ (reset errSession).generatedResults = []
    ∧ (reset errSession).state = AppState.HOME
    ∧ (reset errSession).error = some "boom" := by
  refine ⟨?_, rfl, rfl, rfl, rfl, rfl⟩
  exact .custom (.capture (.app_start .init))

/-- Claim C3 (amended): invoking `reset` from any phase clears
`sourceImage`, `results`, the analysis annotation, the filter and the
instruction and sets the phase to HOME, but it leaves `lastError` (and
`activeResultIndex`) unchanged rather than clearing them. -/
theorem claim3_reset_behavior (s : Session) :
    (reset s).capturedImage = none
    ∧ (reset s).generatedResults = []
    ∧ (reset s).analysisText = none
    ∧ (reset s).state = AppState.HOME
    ∧ (reset s).activeFilter = "none"
    ∧ (reset s).customPrompt = ""
    ∧ (reset s).error = s.error
    ∧ (reset s).activeIndex = s.activeIndex :=
  ⟨rfl, rfl, rfl, rfl, rfl, rfl, rfl, rfl⟩

/-! ### Claim C4 -/

/-- A reachable PREVIEW session that still holds results: a one-era batch
succeeds, then the user goes back from RESULT to PREVIEW. -/
def previewWithResults : Session :=
  backToPreview (handleStartJourney capturedSession [(Era.VIKING, Except.ok "u1")])

/-- Claim C4 counterexample: from a reachable PREVIEW session with
non-empty results, the analyze action enters PROCESSING having cleared
`lastError` but not `results` (its opening statements are only
`setState(PROCESSING); setError(null)`), so the claim that every
transition into PROCESSING clears the results is false at this input. -/
theorem claim4_counterexample :
    Reachable previewWithResults
    ∧ previewWithResults.state = AppState.PREVIEW
    ∧ previewWithResults.generatedResults = [⟨"Viking Age", "u1"⟩]
    ∧ (analyzeEntry previewWithResults).state = AppState.PROCESSING
    ∧ (analyzeEntry previewWithResults).error = none
    ∧ (analyzeEntry previewWithResults).generatedResults = [⟨"Viking Age", "u1"⟩]
    ∧ (handleAnalyze previewWithResults (Except.ok "report")).generatedResults
        = [⟨"Viking Age", "u1"⟩] := by
  refine ⟨?_, rfl, rfl, rfl, rfl, rfl, rfl⟩
  exact .toPreview (.journey (.capture (.app_start .init)))

/-- Claim C4 (amended): every action that transitions into PROCESSING or
RESTORE clears `lastError` at the start of that transition; the batch,
custom-edit, mask-confirm and restore actions also clear `results` there,
but the analyze action enters PROCESSING with `results` untouched. (Batch
continuation never re-enters PROCESSING mid-run: the loop runs entirely
inside one PROCESSING phase.) -/
theorem claim4_entry_clears (s : Session) :
    (analyzeEntry s).state = AppState.PROCESSING
    ∧ (analyzeEntry s).error = none
    ∧ (analyzeEntry s).generatedResults = s.generatedResults
    ∧ (startJourneyEntry s).state = AppState.PROCESSING
    ∧ (startJourneyEntry s).error = none
    ∧ (startJourneyEntry s).generatedResults = []
    ∧ (customEditEntry s).state = AppState.PROCESSING
    ∧ (customEditEntry s).error = none
    ∧ (customEditEntry s).generatedResults = []
    ∧ (magicEditEntry s).state = AppState.PROCESSING
    ∧ (magicEditEntry s).error = none
    ∧ (magicEditEntry s).generatedResults = []
    ∧ (restoreEntry s).state = AppState.RESTORE
    ∧ (restoreEntry s).error = none
    ∧ (restoreEntry s).generatedResults = [] :=
  ⟨rfl, rfl, rfl, rfl, rfl, rfl, rfl, rfl, rfl, rfl, rfl, rfl, rfl, rfl, rfl⟩

/-! ### Claim C5 -/

/-- A reachable session violating the index bound: a two-era batch
succeeds, the user selects the second thumbnail, then resets. `reset`
clears the results but leaves `activeIndex = 1`. -/
def badIndexSession : Session :=
  reset (selectResult
    (handleStartJourney capturedSession
      [(Era.VIKING, Except.ok "u1"), (Era.CYBERPUNK, Except.ok "u2")]) 1)

/-- Claim C5 counterexample: a reachable session in which
`activeResultIndex < max(1, len(results))` fails, produced by `reset`
(which clears `results` without resetting `activeIndex`); so neither the
claimed invariant nor the claimed joint reset holds on the code. -/
theorem claim5_counterexample :
    Reachable badIndexSession
    ∧ badIndexSession.generatedResults = []
    ∧ badIndexSession.activeIndex = 1
    ∧ ¬ (badIndexSession.activeIndex < max 1 badIndexSession.generatedResults.length) := by
  refine ⟨?_, rfl, rfl, by decide⟩
  exact .sessionReset (.select (.journey (.capture (.app_start .init))))

/-- Claim C5 (amended): each new pipeline run (batch, custom edit, magic
edit, restore) clears `results` and resets `activeResultIndex` to 0
together, but `capture` and `reset` clear `results` while leaving
`activeResultIndex` unchanged, so after a reset or capture that follows
selection of a non-zero result index the bound
`0 <= activeResultIndex < max(1, len(results))` can be violated. -/
theorem claim5_index_reset_behavior (s : Session) (img : String) :
    (startJourneyEntry s).generatedResults = []
    ∧ (startJourneyEntry s).activeIndex = 0
    ∧ (customEditEntry s).generatedResults = []
    ∧ (customEditEntry s).activeIndex = 0
    ∧ (magicEditEntry s).generatedResults = []
    ∧ (magicEditEntry s).activeIndex = 0
    ∧ (restoreEntry s).generatedResults = []
    ∧ (restoreEntry s).activeIndex = 0
    ∧ (reset s).generatedResults = []
    ∧ (reset s).activeIndex = s.activeIndex
    ∧ (handleCapture s img).generatedResults = []
    ∧ (handleCapture s img).activeIndex = s.activeIndex :=
  ⟨rfl, rfl, rfl, rfl, rfl, rfl, rfl, rfl, rfl, rfl, rfl, rfl⟩

/-! ### Claim C1 -/

/-- Claim C1: for every batch run over a non-empty ordered item list in
which the remote collaborator succeeds on the first `k` items (`good`,
with `k = good.length`) and fails on item `k+1` if one remains (`rest` is
either empty or headed by a failing item): the final `results` length is
exactly `k`, the final phase is RESULT iff `k >= 1` and otherwise the
pre-run phase PREVIEW, and `lastError` is set iff `k < N`. The same
terminal-success rule holds for the single-item `handleCustomEdit` run. -/
theorem claim1_batch_failure_tolerance (s : Session) (img : String)
    (himg : s.capturedImage = some img)
    (good : List (Era × String)) (rest : List (Era × Except String String))
    (hne : good.map okItem ++ rest ≠ [])
    (hrest : rest = [] ∨ ∃ e m more, rest = (e, Except.error m) :: more)
    (prompt : String) (outcome : Except String String) :
    ((handleStartJourney s (good.map okItem ++ rest)).generatedResults.length = good.length
      ∧ (handleStartJourney s (good.map okItem ++ rest)).state
          = (if 0 < good.length then AppState.RESULT else AppState.PREVIEW)
      ∧ ((handleStartJourney s (good.map okItem ++ rest)).error.isSome
          ↔ good.length < (good.map okItem ++ rest).length))
    ∧ ((∀ u, outcome = Except.ok u →
          (handleCustomEdit s prompt outcome).generatedResults.length = 1
          ∧ (handleCustomEdit s prompt outcome).state = AppState.RESULT
          ∧ (handleCustomEdit s prompt outcome).error = none)
        ∧ (∀ m, outcome = Except.error m →
          (handleCustomEdit s prompt outcome).generatedResults.length = 0
          ∧ (handleCustomEdit s prompt outcome).state = AppState.PREVIEW
          ∧ (handleCustomEdit s prompt outcome).error.isSome)) := by
  constructor
  · rw [handleStartJourney_eq s img himg _ hne, runEras_append_ok]
    rcases hrest with rfl | ⟨e, m, more, rfl⟩
    · have hg : good ≠ [] := by
        intro h
        exact hne (by simp [h])
      have hlen : 0 < good.length := List.length_pos.mpr hg
      simp [startJourneyFinish, startJourneyEntry, runEras, hlen]
    · simp [startJourneyFinish, startJourneyEntry, runEras_error_cons, okItem]
  · constructor
    · rintro u rfl
      unfold handleCustomEdit customEditEntry
      rw [himg]
      exact ⟨rfl, rfl, rfl⟩
    · rintro m rfl
      unfold handleCustomEdit customEditEntry
      rw [himg]
      refine ⟨rfl, rfl, by simp [messageOr]⟩

/-- The successful prefix of the batch used by the C1 and C2 witnesses. -/
def journeyGood : List (Era × String) := [(Era.VIKING, "u1")]

/-- A concrete two-item batch: the Viking item succeeds, the Cyberpunk
item fails with a no-image error. -/
def journeyItems : List (Era × Except String String) :=
  journeyGood.map okItem ++ [(Era.CYBERPUNK, Except.error "No image generated.")]

/-- Witness for C1 at a concrete two-item batch with one success and one
failure, and a concrete failing custom edit. -/
theorem claim1_witness :
    ((handleStartJourney capturedSession journeyItems).generatedResults.length
        = journeyGood.length
      ∧ (handleStartJourney capturedSession journeyItems).state
          = (if 0 < journeyGood.length then AppState.RESULT else AppState.PREVIEW)
      ∧ ((handleStartJourney capturedSession journeyItems).error.isSome
          ↔ journeyGood.length < journeyItems.length))
    ∧ ((handleCustomEdit capturedSession "p" (Except.error "boom")).generatedResults.length = 0
      ∧ (handleCustomEdit capturedSession "p" (Except.error "boom")).state = AppState.PREVIEW
      ∧ (handleCustomEdit capturedSession "p" (Except.error "boom")).error.isSome) := by
  have h := claim1_batch_failure_tolerance capturedSession "img" rfl
    journeyGood [(Era.CYBERPUNK, Except.error "No image generated.")] (by simp [journeyGood, okItem])
    (Or.inr ⟨Era.CYBERPUNK, "No image generated.", [], rfl⟩)
    "p" (Except.error "boom")
  exact ⟨h.1, h.2.2 "boom" rfl⟩

/-! ### Claim C2 -/

/-- Claim C2: batch execution is sequential with abort-on-failure — the
eras actually requested are exactly the items up to and including the
first failing one, in list order (item `i+1` is requested only once the
first `i` calls resolved successfully), and for every `i` below the
number of successes, `results[i]`'s label is the label of the `i`-th
requested item: the stored labels are exactly the labels of the first `k`
items, in order, none dropped or reordered. -/
theorem claim2_sequential_order (s : Session) (img : String)
    (himg : s.capturedImage = some img)
    (good : List (Era × String)) (rest : List (Era × Except String String))
    (hne : good.map okItem ++ rest ≠ [])
    (hrest : rest = [] ∨ ∃ e m more, rest = (e, Except.error m) :: more) :
    (handleStartJourney s (good.map okItem ++ rest)).generatedResults.map
        (fun r => r.era)
      = ((good.map okItem ++ rest).take good.length).map (fun p => eraLabel p.1)
    ∧ (runEras (good.map okItem ++ rest)).requested
      = ((good.map okItem ++ rest).take (good.length + 1)).map (fun p => p.1) := by
  have htake0 : (good.map okItem ++ rest).take good.length = good.map okItem := by
    have h0 := take_append_add (good.map okItem) rest 0
    simp only [Nat.add_zero, List.take_zero, List.append_nil, List.length_map] at h0
    exact h0
  have htake1 : (good.map okItem ++ rest).take (good.length + 1)
      = good.map okItem ++ rest.take 1 := by
    have := take_append_add (good.map okItem) rest 1
    simpa using this
  constructor
  · rw [handleStartJourney_eq s img himg _ hne, runEras_append_ok, htake0]
    rcases hrest with rfl | ⟨e, m, more, rfl⟩
    · simp [startJourneyFinish, startJourneyEntry, runEras, okItem]
    · simp [startJourneyFinish, startJourneyEntry, runEras_error_cons, okItem]
  · rw [runEras_append_ok, htake1]
    rcases hrest with rfl | ⟨e, m, more, rfl⟩
    · simp [runEras, okItem]
    · simp [runEras_error_cons, okItem]

/-- Witness for C2 at the same concrete two-item batch. -/
theorem claim2_witness :
    (handleStartJourney capturedSession journeyItems).generatedResults.map
        (fun r => r.era)
      = (journeyItems.take journeyGood.length).map (fun p => eraLabel p.1)
    ∧ (runEras journeyItems).requested
      = (journeyItems.take (journeyGood.length + 1)).map (fun p => p.1) :=
  claim2_sequential_order capturedSession "img" rfl
    journeyGood [(Era.CYBERPUNK, Except.error "No image generated.")]
    (by simp [journeyGood, okItem])
    (Or.inr ⟨Era.CYBERPUNK, "No image generated.", [], rfl⟩)

/-! ### Claim C6 -/

/-- Claim C6: running the binarization loop over a mask buffer obtained
by compositing any stroke-coverage pattern over the black fill turns a
pixel into opaque white `(255,255,255,255)` exactly when it received any
stroke ink and leaves it opaque black `(0,0,0,255)` otherwise; a
composited pixel has a non-zero color channel iff it received ink, and
every channel of the output buffer is 0 or 255, so exactly two pixel
values occur and no third value appears. -/
theorem claim6_mask_binarization (alphas : List Nat) :
    binarizeData ((alphas.map compositedStrokePixel).flatten)
      = (alphas.map (fun a =>
          if 0 < a then [255, 255, 255, 255] else [0, 0, 0, 255])).flatten
    ∧ (∀ a : Nat, compositedStrokePixel a = [0, 0, 0, 255] ↔ a = 0)
    ∧ (∀ x : Nat, x ∈ binarizeData ((alphas.map compositedStrokePixel).flatten)
        → x = 0 ∨ x = 255) := by
  have key : ∀ l : List Nat,
      binarizeData ((l.map compositedStrokePixel).flatten)
        = (l.map (fun a =>
            if 0 < a then [255, 255, 255, 255] else [0, 0, 0, 255])).flatten := by
    intro l
    induction l with
    | nil => rfl
    | cons a as ih =>
      simp only [List.map_cons, List.flatten_cons, compositedStrokePixel,
        List.cons_append, List.nil_append, binarizeData_cons4, compositedRed]
      by_cases ha : 0 < a
      · simp [ha, ih]
      · have ha0 : a = 0 := by omega
        subst ha0
        simp [ih]
  refine ⟨key alphas, ?_, ?_⟩
  · intro a
    constructor
    · intro h
      simp only [compositedStrokePixel, compositedRed, List.cons.injEq, and_true] at h
      omega
    · intro h
      subst h
      rfl
  · rw [key alphas]
    intro x hx
    induction alphas with
    | nil => simp at hx
    | cons a as ih =>
      simp only [List.map_cons, List.flatten_cons, List.mem_append] at hx
      rcases hx with hx | hx
      · by_cases ha : 0 < a <;> simp [ha] at hx <;> omega
      · exact ih hx

/-- Witness for C6 at a concrete two-pixel buffer (one untouched pixel,
one stroked pixel with coverage 7/255), applying the theorem to evaluate
the binarized buffer, the channel test, and the two-valuedness of a
concrete member. -/
theorem claim6_witness :
    binarizeData ((([0, 7] : List Nat).map compositedStrokePixel).flatten)
      = (([0, 7] : List Nat).map (fun a =>
          if 0 < a then [255, 255, 255, 255] else [0, 0, 0, 255])).flatten
    ∧ (compositedStrokePixel 7 = [0, 0, 0, 255] ↔ 7 = 0)
    ∧ ((0 : Nat) = 0 ∨ (0 : Nat) = 255) := by
  refine ⟨(claim6_mask_binarization [0, 7]).1,
    (claim6_mask_binarization [0, 7]).2.1 7,
    (claim6_mask_binarization [0, 7]).2.2 0 ?_⟩
  decide

/-! ### Claim C7 -/

/-- Claim C7: for every detail level, `getResolutionPrompt` combines the
resolution-tier base clause (a function of the tier alone, independent of
the detail level) with the detail clause chosen by the two thresholds:
the soft/low-detail clause below 30, the high-fidelity clause above 70,
and the neutral balanced clause on [30, 70]; the two clauses are
concatenated into the output, never substituted for each other. -/
theorem claim7_resolution_prompt (res : Resolution) (d : Nat) :
    (d < 30 → getResolutionPrompt res d
        = resolutionBase res
          ++ " Ensure the image has soft edges, smooth textures, dreamy quality.")
    ∧ (30 ≤ d → d ≤ 70 → getResolutionPrompt res d
        = resolutionBase res ++ " Ensure the image has balanced details.")
    ∧ (70 < d → getResolutionPrompt res d
        = resolutionBase res
          ++ " Ensure the image has intricate micro-details, hyper-realistic textures, extremely sharp edges, high fidelity.") := by
  refine ⟨fun h => ?_, fun h1 h2 => ?_, fun h => ?_⟩
  · unfold getResolutionPrompt
    rw [if_pos h]
    cases res <;> rfl
  · unfold getResolutionPrompt
    rw [if_neg (by omega : ¬ d < 30), if_neg (by omega : ¬ 70 < d)]
    cases res <;> rfl
  · unfold getResolutionPrompt
    rw [if_neg (by omega : ¬ d < 30), if_pos h]
    cases res <;> rfl

/-- Witness for C7 at each of the three detail bands and at each tier. -/
theorem claim7_witness :
    getResolutionPrompt Resolution.STANDARD 10
      = resolutionBase Resolution.STANDARD
        ++ " Ensure the image has soft edges, smooth textures, dreamy quality."
    ∧ getResolutionPrompt Resolution.ULTRA_4K 50
      = resolutionBase Resolution.ULTRA_4K ++ " Ensure the image has balanced details."
    ∧ getResolutionPrompt Resolution.HIGH 90
      = resolutionBase Resolution.HIGH
        ++ " Ensure the image has intricate micro-details, hyper-realistic textures, extremely sharp edges, high fidelity." :=
  ⟨(claim7_resolution_prompt Resolution.STANDARD 10).1 (by omega),
   (claim7_resolution_prompt Resolution.ULTRA_4K 50).2.1 (by omega) (by omega),
   (claim7_resolution_prompt Resolution.HIGH 90).2.2 (by omega)⟩

/-! ### Claim C8 -/

/-- Claim C8: `getStylePrompt` is total and never raises — it always
returns one of the fixed clauses; it is injective on the closed style
enumeration (no two style tags produce the same clause); and any string
that is not a style tag value falls back to the realistic/neutral clause
rather than an error. -/
theorem claim8_style_mapping :
    (∀ s t : ImageStyle,
        getStylePrompt (styleValue s) = getStylePrompt (styleValue t) → s = t)
    ∧ (∀ str : String, (∀ s : ImageStyle, styleValue s ≠ str)
        → getStylePrompt str = realisticClause)
    ∧ (∀ str : String, getStylePrompt str ∈ styleClauses) := by
  refine ⟨?_, ?_, ?_⟩
  · intro s t h
    cases s <;> cases t <;> first | rfl | exact absurd h (by decide)
  · intro str h
    have h1 : ¬ str = "Cinematic" := fun e => h ImageStyle.CINEMATIC e.symm
    have h2 : ¬ str = "Vintage Film" := fun e => h ImageStyle.VINTAGE e.symm
    have h3 : ¬ str = "Oil Painting" := fun e => h ImageStyle.PAINTING e.symm
    have h4 : ¬ str = "Cyberpunk/Neon" := fun e => h ImageStyle.CYBER e.symm
    have h5 : ¬ str = "Pencil Sketch" := fun e => h ImageStyle.SKETCH e.symm
    have h6 : ¬ str = "Studio Lighting" := fun e => h ImageStyle.STUDIO_LIGHTING e.symm
    have h7 : ¬ str = "Steampunk" := fun e => h ImageStyle.STEAMPUNK e.symm
    have h8 : ¬ str = "Art Deco" := fun e => h ImageStyle.ART_DECO e.symm
    have h9 : ¬ str = "Retro Futurism" := fun e => h ImageStyle.RETRO_FUTURISM e.symm
    simp only [getStylePrompt, if_neg h1, if_neg h2, if_neg h3, if_neg h4,
      if_neg h5, if_neg h6, if_neg h7, if_neg h8, if_neg h9]
  · intro str
    unfold getStylePrompt
    repeat' split
    all_goals decide

/-- Witness for C8: an unrecognized tag falls back to the realistic
clause, and a recognized tag value returns a member of the clause set. -/
theorem claim8_witness :
    getStylePrompt "garbage" = realisticClause
    ∧ getStylePrompt "Cinematic" ∈ styleClauses :=
  ⟨claim8_style_mapping.2.1 "garbage" (fun s => by cases s <;> decide),
   claim8_style_mapping.2.2 "Cinematic"⟩

/-! ### Claim C9 -/

/-- Claim C9: mask confirmation is inert (zero binarization passes, no
hand-off) whenever no stroke has been drawn or the instruction trims to
the empty string; with at least one stroke drawn and a non-whitespace
instruction, confirming runs the binarization exactly once and hands the
binarized mask together with the instruction to `onConfirm`. -/
theorem claim9_mask_gating (m : MaskEditorModel) :
    ((m.hasDrawn = false ∨ jsTrim m.prompt = "") → confirmAction m = (0, none))
    ∧ (m.hasDrawn = true → ¬ jsTrim m.prompt = "" →
        confirmAction m
          = (1, some (binarizeData ((m.canvasAlphas.map compositedStrokePixel).flatten),
              m.prompt))) := by
  constructor
  · intro h
    unfold confirmAction
    rcases h with h | h
    · rw [if_neg]
      simp [h]
    · rw [if_neg]
      simp [h]
  · intro h1 h2
    unfold confirmAction handleSubmit
    rw [if_pos ⟨h1, h2⟩, if_neg h2]

/-- Witness for C9: a drawn stroke with a real instruction binarizes once
and hands off; no stroke, or a whitespace-only instruction, is inert. -/
theorem claim9_witness :
    confirmAction ⟨true, " add a red hat ", [0, 3]⟩
      = (1, some (binarizeData ((([0, 3] : List Nat).map compositedStrokePixel).flatten),
          " add a red hat "))
    ∧ confirmAction ⟨false, "add a red hat", [3]⟩ = (0, none)
    ∧ confirmAction ⟨true, "   ", [3]⟩ = (0, none) :=
  ⟨(claim9_mask_gating ⟨true, " add a red hat ", [0, 3]⟩).2 rfl (by decide),
   (claim9_mask_gating ⟨false, "add a red hat", [3]⟩).1 (Or.inl rfl),
   (claim9_mask_gating ⟨true, "   ", [3]⟩).1 (Or.inr (by decide))⟩

/-! ### Claim C10 -/

/-- Claim C10: whenever the restoration flow reaches its transformation
request, that request carries the fixed configuration
`style = Photorealistic` (`REALISTIC`), `resolution = High Quality`
(`HIGH`) and `detailLevel = 80`, for every session — regardless of the
session's configured style, resolution and detail level. -/
theorem claim10_restore_request (s : Session) (img : String)
    (himg : s.capturedImage = some img)
    (analysisOutcome editOutcome : Except String String) (req : EditRequest)
    (hreq : (handleRestore s analysisOutcome editOutcome).2 = some req) :
    req.style = ImageStyle.REALISTIC
    ∧ req.resolution = Resolution.HIGH
    ∧ req.detailLevel = 80 := by
  unfold handleRestore at hreq
  rw [himg] at hreq
  cases analysisOutcome with
  | error m => simp at hreq
  | ok damageReport =>
    cases editOutcome with
    | ok url =>
      simp only [Option.some.injEq] at hreq
      subst hreq
      exact ⟨rfl, rfl, rfl⟩
    | error m =>
      simp only [Option.some.injEq] at hreq
      subst hreq
      exact ⟨rfl, rfl, rfl⟩

/-- A captured session whose user configuration differs from the fixed
restoration configuration in every component. -/
def customConfigSession : Session :=
  { capturedSession with
      selectedStyle := ImageStyle.CYBER
      selectedResolution := Resolution.ULTRA_4K
      detailLevel := 10 }

/-- Witness for C10: a session configured with Cyberpunk/Neon, 4K Ultra
and detail 10 still issues the restore request with Photorealistic, High
Quality and detail 80. -/
theorem claim10_witness :
    (restoreRequest "img" "scratches").style = ImageStyle.REALISTIC
    ∧ (restoreRequest "img" "scratches").resolution = Resolution.HIGH
    ∧ (restoreRequest "img" "scratches").detailLevel = 80 :=
  claim10_restore_request customConfigSession "img" rfl
    (Except.ok "scratches") (Except.ok "url") (restoreRequest "img" "scratches") rfl
